import Mathlib

/-!
Verification of the llvm-cov `gcov` orchestration layer
(`llvm/tools/llvm-cov/gcov.cpp`): companion-file resolution, the
validation/reporting pipeline and the driver loop, embedded shallowly.
The external collaborators (file system, `GCOVFile` readers from
`llvm/ProfileData/GCOV.h`, `std::error_code`) are modelled as an
environment of oracle functions; the path primitives from
`llvm/Support/Path.h` are modelled from the spec since their source is
not part of this fragment.
-/

namespace Gcov

/-- A loaded file's bytes (`MemoryBuffer` contents). -/
abbrev Buffer := List Nat

/-- Modelled from the spec: `std::error_code` as seen by the pipeline.
The pipeline only ever distinguishes `errc::no_such_file_or_directory`
from every other code, and turns a code into a system message with
`.message()`. -/
inductive ErrorCode where
  | noSuchFileOrDirectory
  | other (msg : String)
deriving DecidableEq

/-- Modelled from the spec: the system error message of a code
(`std::error_code::message`). -/
def ErrorCode.message : ErrorCode → String
  | .noSuchFileOrDirectory => "No such file or directory"
  | .other m => m

/-- Modelled from the spec: `llvm::sys::path::parent_path` — the path with
its last component removed ("parent directory of sourcePath"). -/
def parentPath (p : String) : String :=
  match p.toList.reverse.dropWhile (fun c => c ≠ '/') with
  | [] => ""
  | _ :: tail => if tail = [] then "/" else String.mk tail.reverse

/-- Modelled from the spec: the last path component
(`llvm::sys::path::filename`). -/
def fileNameOf (p : String) : String :=
  String.mk ((p.toList.reverse.takeWhile (fun c => c ≠ '/')).reverse)

/-- Modelled from the spec: `llvm::sys::path::stem` — the base name with
its extension stripped. -/
def stemOf (p : String) : String :=
  let f := fileNameOf p
  if f = "." ∨ f = ".." then f
  else if f.toList.contains '.' then
    String.mk (((f.toList.reverse.dropWhile (fun c => c ≠ '.')).drop 1).reverse)
  else f

/-- Modelled from the spec: `llvm::sys::path::append` — join a path and a
further component with a separator. -/
def pathAppend (p c : String) : String :=
  if p = "" then c
  else if p.toList.getLast? = some '/' then p ++ c
  else p ++ "/" ++ c

/-- Modelled from the spec: `llvm::sys::path::replace_extension(path, "")`
— the path with its extension removed. -/
def removeExtension (p : String) : String :=
  let f := fileNameOf p
  if f = "." ∨ f = ".." then p
  else if f.toList.contains '.' then
    String.mk (((p.toList.reverse.dropWhile (fun c => c ≠ '.')).drop 1).reverse)
  else p

/-- Modelled from the spec: the external collaborators the pipeline
consumes — the file system (`MemoryBuffer::getFileOrSTDIN`,
`sys::fs::is_directory`) and the coverage-graph readers
(`GCOVFile::readGCNO`, `GCOVBuffer::readGCDAFormat`,
`GCOVFile::readGCDA`), each as an oracle-valued function. -/
structure Env where
  getFileOrSTDIN : String → Except ErrorCode Buffer
  isDirectory : String → Bool
  readGCNOok : Buffer → Bool
  readGCDAFormatOk : Buffer → Bool
  readGCDAok : Buffer → Bool

/-- Modelled from the spec: the coverage graph (`GCOVFile`) as the record
of which buffers were successfully applied to it — the notes buffer, and
optionally the data buffer. A fresh graph has neither. -/
structure GCOVFile where
  notes : Option Buffer := none
  data : Option Buffer := none
deriving DecidableEq

/-- The arguments handed to the external renderer `gcovOneInput`
(the option model is passed through unchanged and out of scope). -/
structure RenderCall where
  sourceFile : String
  gcno : String
  gcda : String
  gf : GCOVFile
deriving DecidableEq

/-- Observable result of one `reportCoverage` invocation: the diagnostics
written to `errs()` in order, the graph dumped by `--dump` if any, and the
renderer invocation if one happened. -/
structure Outcome where
  diags : List String
  dumped : Option GCOVFile
  render : Option RenderCall
deriving DecidableEq

/-- `createCoverageFileStem` (gcov.cpp:22-38): derive the artifact stem
from the source path and the `-o` object-dir-or-file override. -/
def createCoverageFileStem (env : Env) (sourceFile objectDir : String) : String :=
  if objectDir = "" then
    pathAppend (parentPath sourceFile) (stemOf sourceFile)
  else if env.isDirectory objectDir then
    pathAppend objectDir (stemOf sourceFile)
  else
    removeExtension objectDir

/-- `createInputFileName` (gcov.cpp:40-46): an explicit override wins,
otherwise `stem ++ ".gc" ++ extensionSuffix`. -/
def createInputFileName (coverageFileStem inputGCFileName extensionSuffix : String) :
    String :=
  if inputGCFileName = "" then coverageFileStem ++ ".gc" ++ extensionSuffix
  else inputGCFileName

/-- `reportGCOVFileNameError` (gcov.cpp:48-51): the diagnostic line for a
file-load error. -/
def reportGCOVFileNameError (gcovFileName : String) (ec : ErrorCode) : String :=
  gcovFileName ++ ": " ++ ec.message

/-- `validateGCNOFile` (gcov.cpp:61-70): feed the notes buffer to
`GF.readGCNO`; on rejection emit "Invalid .gcno File!" and fail. -/
def validateGCNOFile (env : Env) (buf : Buffer) (gf : GCOVFile) :
    Bool × GCOVFile × List String :=
  if env.readGCNOok buf then (true, { gf with notes := some buf }, [])
  else (false, gf, ["Invalid .gcno File!"])

/-- `validateGCDAFile` (gcov.cpp:72-80): sniff the data-format header with
`readGCDAFormat`; on mismatch emit "<GCDA>:not a gcov data file" and do
not attempt `readGCDA`; on structural rejection emit
"Invalid .gcda File!". Never fails the pipeline. -/
def validateGCDAFile (env : Env) (gf : GCOVFile) (gcda : String) (buf : Buffer) :
    GCOVFile × List String :=
  if ¬ env.readGCDAFormatOk buf then (gf, [gcda ++ ":not a gcov data file"])
  else if env.readGCDAok buf then ({ gf with data := some buf }, [])
  else (gf, ["Invalid .gcda File!"])

/-- `reportCoverage` (gcov.cpp:82-118): the per-source-file pipeline. A
fresh `GCOVFile` is constructed at entry; stem and both artifact names are
derived; the notes file is loaded and validated (any failure abandons the
file); the data file is loaded (missing file falls back to the stand-in
name "-" with no diagnostic; any other load error abandons the file) and
validated best-effort; finally the renderer is invoked. -/
def reportCoverage (env : Env) (sourceFile objectDir inputGCNO inputGCDA : String)
    (dumpGCOV : Bool) : Outcome :=
  let gf0 : GCOVFile := {}
  let coverageFileStem := createCoverageFileStem env sourceFile objectDir
  let gcno := createInputFileName coverageFileStem inputGCNO "no"
  match env.getFileOrSTDIN gcno with
  | .error ec =>
      { diags := [reportGCOVFileNameError gcno ec], dumped := none, render := none }
  | .ok gcnoBuf =>
      match validateGCNOFile env gcnoBuf gf0 with
      | (false, _, ds) => { diags := ds, dumped := none, render := none }
      | (true, gf1, ds1) =>
          let gcdaName := createInputFileName coverageFileStem inputGCDA "da"
          match env.getFileOrSTDIN gcdaName with
          | .error ec =>
              if ec ≠ ErrorCode.noSuchFileOrDirectory then
                { diags := ds1 ++ [reportGCOVFileNameError gcdaName ec],
                  dumped := none, render := none }
              else
                { diags := ds1,
                  dumped := if dumpGCOV then some gf1 else none,
                  render := some { sourceFile := sourceFile, gcno := gcno,
                                   gcda := "-", gf := gf1 } }
          | .ok gcdaBuf =>
              let vr := validateGCDAFile env gf1 gcdaName gcdaBuf
              { diags := ds1 ++ vr.2,
                dumped := if dumpGCOV then some vr.1 else none,
                render := some { sourceFile := sourceFile, gcno := gcno,
                                 gcda := gcdaName, gf := vr.1 } }

/-- `gcovMain`'s driver loop and exit status (gcov.cpp:211-214): one
pipeline invocation per source file, in command-line order, then
`return 0`. -/
def gcovMain (env : Env) (sourceFiles : List String)
    (objectDir inputGCNO inputGCDA : String) (dumpGCOV : Bool) :
    List Outcome × Nat :=
  (sourceFiles.map fun sf =>
      reportCoverage env sf objectDir inputGCNO inputGCDA dumpGCOV,
   0)

/-- The resolved notes-file name of one invocation. -/
def notesName (env : Env) (sourceFile objectDir inputGCNO : String) : String :=
  createInputFileName (createCoverageFileStem env sourceFile objectDir) inputGCNO "no"

/-- The resolved data-file name of one invocation. -/
def dataName (env : Env) (sourceFile objectDir inputGCDA : String) : String :=
  createInputFileName (createCoverageFileStem env sourceFile objectDir) inputGCDA "da"

/-- An environment where "obj" is the only directory and no file loads;
used to exercise the stem-derivation branches on concrete inputs. -/
def envDir : Env :=
  { getFileOrSTDIN := fun _ => .error .noSuchFileOrDirectory,
    isDirectory := fun d => d == "obj",
    readGCNOok := fun _ => false,
    readGCDAFormatOk := fun _ => false,
    readGCDAok := fun _ => false }

theorem string_append_assoc (a b c : String) : a ++ b ++ c = a ++ (b ++ c) := by
  cases a with
  | mk da =>
    cases b with
    | mk db =>
      cases c with
      | mk dc =>
        show String.mk (da ++ db ++ dc) = String.mk (da ++ (db ++ dc))
        rw [List.append_assoc]

/-- C6: `createCoverageFileStem` follows the three-way rule in order: an
empty override yields the source's parent directory joined with its
extension-stripped base name; a non-empty override that is a directory
yields the override joined with the source's base name, independent of
the source's directory; otherwise the override with its extension
removed, with the source path ignored entirely. -/
theorem c6_createCoverageFileStem_three_way (env : Env) (p objectDir : String) :
    (objectDir = "" →
      createCoverageFileStem env p objectDir =
        pathAppend (parentPath p) (stemOf p)) ∧
    (objectDir ≠ "" → env.isDirectory objectDir = true →
      createCoverageFileStem env p objectDir = pathAppend objectDir (stemOf p) ∧
      ∀ q, stemOf q = stemOf p →
        createCoverageFileStem env q objectDir =
          createCoverageFileStem env p objectDir) ∧
    (objectDir ≠ "" → env.isDirectory objectDir = false →
      createCoverageFileStem env p objectDir = removeExtension objectDir ∧
      ∀ q, createCoverageFileStem env q objectDir =
        createCoverageFileStem env p objectDir) := by
  unfold createCoverageFileStem
  refine ⟨fun h => by simp [h], fun h hd => ⟨by simp [h, hd], fun q hq => by
    simp [h, hd, hq]⟩, fun h hd => ⟨by simp [h, hd], fun q => by simp [h, hd]⟩⟩

theorem c6_witness :
    ("" = "" ∧
      createCoverageFileStem envDir "a/t.c" "" =
        pathAppend (parentPath "a/t.c") (stemOf "a/t.c")) ∧
    ("obj" ≠ "" ∧ envDir.isDirectory "obj" = true ∧
      createCoverageFileStem envDir "a/t.c" "obj" =
        pathAppend "obj" (stemOf "a/t.c")) ∧
    ("x/f.o" ≠ "" ∧ envDir.isDirectory "x/f.o" = false ∧
      createCoverageFileStem envDir "a/t.c" "x/f.o" = removeExtension "x/f.o" ∧
      createCoverageFileStem envDir "other/zzz.cpp" "x/f.o" =
        createCoverageFileStem envDir "a/t.c" "x/f.o") :=
  ⟨⟨rfl, (c6_createCoverageFileStem_three_way envDir "a/t.c" "").1 rfl⟩,
   ⟨by decide, rfl,
    ((c6_createCoverageFileStem_three_way envDir "a/t.c" "obj").2.1
      (by decide) rfl).1⟩,
   ⟨by decide, rfl,
    ((c6_createCoverageFileStem_three_way envDir "a/t.c" "x/f.o").2.2
      (by decide) rfl).1,
    ((c6_createCoverageFileStem_three_way envDir "a/t.c" "x/f.o").2.2
      (by decide) rfl).2 "other/zzz.cpp"⟩⟩

/-- C7: `createInputFileName` returns a supplied explicit override
verbatim regardless of the stem (and of the suffix); with no override it
returns `stem ++ ".gcno"` for suffix "no" and `stem ++ ".gcda"` for
suffix "da". -/
theorem c7_createInputFileName_override_and_defaults
    (coverageFileStem inputGCFileName : String) :
    (inputGCFileName ≠ "" →
      ∀ s suffixLetters,
        createInputFileName s inputGCFileName suffixLetters = inputGCFileName) ∧
    createInputFileName coverageFileStem "" "no" = coverageFileStem ++ ".gcno" ∧
    createInputFileName coverageFileStem "" "da" = coverageFileStem ++ ".gcda" := by
  refine ⟨fun h s suffixLetters => by simp [createInputFileName, h], ?_, ?_⟩
  · show coverageFileStem ++ ".gc" ++ "no" = coverageFileStem ++ ".gcno"
    rw [string_append_assoc]; rfl
  · show coverageFileStem ++ ".gc" ++ "da" = coverageFileStem ++ ".gcda"
    rw [string_append_assoc]; rfl

theorem c7_witness :
    ("override.gcno" ≠ "" ∧
      createInputFileName "stemA" "override.gcno" "no" = "override.gcno") ∧
    createInputFileName "stemA" "" "no" = "stemA" ++ ".gcno" ∧
    createInputFileName "stemA" "" "da" = "stemA" ++ ".gcda" :=
  ⟨⟨by decide,
    (c7_createInputFileName_override_and_defaults "stemA" "override.gcno").1
      (by decide) "stemA" "no"⟩,
   (c7_createInputFileName_override_and_defaults "stemA" "override.gcno").2.1,
   (c7_createInputFileName_override_and_defaults "stemA" "override.gcno").2.2⟩

/-- Build an environment from a file-system oracle and constant answers
for the three collaborator readers. -/
def mkEnv (fs : String → Except ErrorCode Buffer)
    (gnoOk gdaFmtOk gdaOk : Bool) : Env :=
  { getFileOrSTDIN := fs,
    isDirectory := fun _ => false,
    readGCNOok := fun _ => gnoOk,
    readGCDAFormatOk := fun _ => gdaFmtOk,
    readGCDAok := fun _ => gdaOk }

/-- File system where only `t.gcno` exists (contents `[1]`). -/
def fsNotesOnly : String → Except ErrorCode Buffer := fun n =>
  if n = "t.gcno" then .ok [1] else .error .noSuchFileOrDirectory

/-- File system where `t.gcno` (contents `[1]`) and `t.gcda`
(contents `[2]`) exist. -/
def fsBoth : String → Except ErrorCode Buffer := fun n =>
  if n = "t.gcno" then .ok [1]
  else if n = "t.gcda" then .ok [2]
  else .error .noSuchFileOrDirectory

def env1 : Env := mkEnv fsNotesOnly true true true

/-- C1: when the notes file loads and parses and the data file is missing
(`no_such_file_or_directory`), the pipeline emits no diagnostic,
substitutes "-" as the effective data-file name, skips data validation
(the rendered graph carries no data buffer), and still invokes the
renderer with the notes-only graph. -/
theorem c1_missing_data_silent_fallback (env : Env)
    (sf od gno gda : String) (dump : Bool) (b : Buffer)
    (hload : env.getFileOrSTDIN (notesName env sf od gno) = .ok b)
    (hparse : env.readGCNOok b = true)
    (hdata : env.getFileOrSTDIN (dataName env sf od gda) =
      .error .noSuchFileOrDirectory) :
    (reportCoverage env sf od gno gda dump).diags = [] ∧
    (reportCoverage env sf od gno gda dump).render =
      some { sourceFile := sf, gcno := notesName env sf od gno, gcda := "-",
             gf := { notes := some b, data := none } } := by
  simp only [notesName, dataName] at hload hdata
  constructor <;>
    simp [reportCoverage, validateGCNOFile, hload, hparse, hdata, notesName]

theorem c1_witness :
    env1.getFileOrSTDIN (notesName env1 "t.c" "" "") = .ok [1] ∧
    env1.readGCNOok [1] = true ∧
    env1.getFileOrSTDIN (dataName env1 "t.c" "" "") =
      .error .noSuchFileOrDirectory ∧
    ((reportCoverage env1 "t.c" "" "" "" false).diags = [] ∧
     (reportCoverage env1 "t.c" "" "" "" false).render =
       some { sourceFile := "t.c", gcno := notesName env1 "t.c" "" "",
              gcda := "-", gf := { notes := some [1], data := none } }) :=
  ⟨rfl, rfl, rfl,
   c1_missing_data_silent_fallback env1 "t.c" "" "" "" false [1] rfl rfl rfl⟩

def env2a : Env := mkEnv fsBoth true false true

def env2b : Env := mkEnv fsBoth true true false

/-- C2: when notes load and parse and the data file loads, a header
mismatch emits `"<dataFileName>:not a gcov data file"` and never attempts
the structural parse (the outcome is the same for every structural-parse
oracle); a header match with a rejected structural parse emits
`"Invalid .gcda File!"`; in both sub-cases the renderer is still invoked
with the notes-only graph. -/
theorem c2_malformed_data_degrades_not_aborts (env : Env)
    (sf od gno gda : String) (dump : Bool) (b db : Buffer)
    (hload : env.getFileOrSTDIN (notesName env sf od gno) = .ok b)
    (hparse : env.readGCNOok b = true)
    (hdload : env.getFileOrSTDIN (dataName env sf od gda) = .ok db) :
    (env.readGCDAFormatOk db = false →
      (reportCoverage env sf od gno gda dump).diags =
        [dataName env sf od gda ++ ":not a gcov data file"] ∧
      (reportCoverage env sf od gno gda dump).render =
        some { sourceFile := sf, gcno := notesName env sf od gno,
               gcda := dataName env sf od gda,
               gf := { notes := some b, data := none } } ∧
      ∀ g, reportCoverage { env with readGCDAok := g } sf od gno gda dump =
        reportCoverage env sf od gno gda dump) ∧
    (env.readGCDAFormatOk db = true → env.readGCDAok db = false →
      (reportCoverage env sf od gno gda dump).diags =
        ["Invalid .gcda File!"] ∧
      (reportCoverage env sf od gno gda dump).render =
        some { sourceFile := sf, gcno := notesName env sf od gno,
               gcda := dataName env sf od gda,
               gf := { notes := some b, data := none } }) := by
  simp only [notesName, dataName] at hload hdload
  constructor
  · intro hfmt
    refine ⟨?_, ?_, fun g => ?_⟩
    · simp [reportCoverage, validateGCNOFile, validateGCDAFile, hload, hparse,
        hdload, hfmt, notesName, dataName]
    · simp [reportCoverage, validateGCNOFile, validateGCDAFile, hload, hparse,
        hdload, hfmt, notesName, dataName]
    · have hstem : createCoverageFileStem { env with readGCDAok := g } sf od =
        createCoverageFileStem env sf od := rfl
      simp [reportCoverage, validateGCNOFile, validateGCDAFile, hstem, hload,
        hparse, hdload, hfmt]
  · intro hfmt hgcda
    constructor <;>
      simp [reportCoverage, validateGCNOFile, validateGCDAFile, hload, hparse,
        hdload, hfmt, hgcda, notesName, dataName]

theorem c2_witness :
    (env2a.getFileOrSTDIN (notesName env2a "t.c" "" "") = .ok [1] ∧
     env2a.readGCNOok [1] = true ∧
     env2a.getFileOrSTDIN (dataName env2a "t.c" "" "") = .ok [2] ∧
     env2a.readGCDAFormatOk [2] = false ∧
     (reportCoverage env2a "t.c" "" "" "" false).diags =
       [dataName env2a "t.c" "" "" ++ ":not a gcov data file"]) ∧
    (env2b.getFileOrSTDIN (notesName env2b "t.c" "" "") = .ok [1] ∧
     env2b.readGCDAFormatOk [2] = true ∧
     env2b.readGCDAok [2] = false ∧
     (reportCoverage env2b "t.c" "" "" "" false).diags =
       ["Invalid .gcda File!"] ∧
     (reportCoverage env2b "t.c" "" "" "" false).render =
       some { sourceFile := "t.c", gcno := notesName env2b "t.c" "" "",
              gcda := dataName env2b "t.c" "" "",
              gf := { notes := some [1], data := none } }) :=
  ⟨⟨rfl, rfl, rfl, rfl,
    ((c2_malformed_data_degrades_not_aborts env2a "t.c" "" "" "" false
      [1] [2] rfl rfl rfl).1 rfl).1⟩,
   ⟨rfl, rfl, rfl,
    ((c2_malformed_data_degrades_not_aborts env2b "t.c" "" "" "" false
      [1] [2] rfl rfl rfl).2 rfl rfl).1,
    ((c2_malformed_data_degrades_not_aborts env2b "t.c" "" "" "" false
      [1] [2] rfl rfl rfl).2 rfl rfl).2⟩⟩

def env3 : Env := mkEnv fsBoth false true true

/-- C3: when the notes file loads but the notes reader rejects it, the
pipeline emits exactly "Invalid .gcno File!" and produces nothing else:
no dump and no renderer invocation. Nothing about the data file appears
among the hypotheses, so the same outcome holds for every state of the
data file — it is never consulted. -/
theorem c3_invalid_notes_aborts_file (env : Env)
    (sf od gno gda : String) (dump : Bool) (b : Buffer)
    (hload : env.getFileOrSTDIN (notesName env sf od gno) = .ok b)
    (hparse : env.readGCNOok b = false) :
    reportCoverage env sf od gno gda dump =
      { diags := ["Invalid .gcno File!"], dumped := none, render := none } := by
  simp only [notesName] at hload
  simp [reportCoverage, validateGCNOFile, hload, hparse]

theorem c3_witness :
    env3.getFileOrSTDIN (notesName env3 "t.c" "" "") = .ok [1] ∧
    env3.readGCNOok [1] = false ∧
    reportCoverage env3 "t.c" "" "" "" true =
      { diags := ["Invalid .gcno File!"], dumped := none, render := none } :=
  ⟨rfl, rfl, c3_invalid_notes_aborts_file env3 "t.c" "" "" "" true [1] rfl rfl⟩

def env4 : Env :=
  mkEnv (fun _ => .error (.other "Permission denied")) true true true

/-- C4: when loading the notes file fails with any error code, the
pipeline emits `"<notesFileName>: <system error message>"` and abandons
the source file: no dump, no renderer invocation, and (the hypotheses
say nothing about the data file or the readers) nothing else is ever
consulted. Being a total function, the pipeline cannot crash. -/
theorem c4_notes_load_error_abandons_file (env : Env)
    (sf od gno gda : String) (dump : Bool) (ec : ErrorCode)
    (hload : env.getFileOrSTDIN (notesName env sf od gno) = .error ec) :
    reportCoverage env sf od gno gda dump =
      { diags := [reportGCOVFileNameError (notesName env sf od gno) ec],
        dumped := none, render := none } := by
  simp only [notesName] at hload ⊢
  simp [reportCoverage, hload]

theorem c4_witness :
    env4.getFileOrSTDIN (notesName env4 "t.c" "" "") =
      .error (.other "Permission denied") ∧
    reportCoverage env4 "t.c" "" "" "" true =
      { diags := [reportGCOVFileNameError (notesName env4 "t.c" "" "")
          (.other "Permission denied")],
        dumped := none, render := none } :=
  ⟨rfl, c4_notes_load_error_abandons_file env4 "t.c" "" "" "" true
    (.other "Permission denied") rfl⟩

/-- File system where `t.gcno` exists and `t.gcda` fails with an error
other than "no such file". -/
def fsDataDenied : String → Except ErrorCode Buffer := fun n =>
  if n = "t.gcno" then .ok [1] else .error (.other "Permission denied")

def env5 : Env := mkEnv fsDataDenied true true true

/-- C5: when notes load and parse but the data file fails to load with
any code other than `no_such_file_or_directory`, the pipeline emits
`"<dataFileName>: <system error message>"` and abandons the file: no
dump, no renderer invocation — unlike the missing-file case, which falls
back silently. -/
theorem c5_data_io_error_abandons_file (env : Env)
    (sf od gno gda : String) (dump : Bool) (b : Buffer) (ec : ErrorCode)
    (hload : env.getFileOrSTDIN (notesName env sf od gno) = .ok b)
    (hparse : env.readGCNOok b = true)
    (hdata : env.getFileOrSTDIN (dataName env sf od gda) = .error ec)
    (hne : ec ≠ ErrorCode.noSuchFileOrDirectory) :
    reportCoverage env sf od gno gda dump =
      { diags := [reportGCOVFileNameError (dataName env sf od gda) ec],
        dumped := none, render := none } := by
  simp only [notesName, dataName] at hload hdata ⊢
  simp [reportCoverage, validateGCNOFile, hload, hparse, hdata, hne]

theorem c5_witness :
    env5.getFileOrSTDIN (notesName env5 "t.c" "" "") = .ok [1] ∧
    env5.readGCNOok [1] = true ∧
    env5.getFileOrSTDIN (dataName env5 "t.c" "" "") =
      .error (.other "Permission denied") ∧
    (.other "Permission denied" : ErrorCode) ≠ .noSuchFileOrDirectory ∧
    reportCoverage env5 "t.c" "" "" "" true =
      { diags := [reportGCOVFileNameError (dataName env5 "t.c" "" "")
          (.other "Permission denied")],
        dumped := none, render := none } :=
  ⟨rfl, rfl, rfl, by decide,
   c5_data_io_error_abandons_file env5 "t.c" "" "" "" true [1]
     (.other "Permission denied") rfl rfl rfl (by decide)⟩

/-- C8: the driver maps the pipeline over the source-file arguments in
command-line order — the outcome at every index is exactly the pipeline
applied to the argument at that index, so no entry's failure affects
another's processing — and the exit status is 0 unconditionally, in
particular even when every per-file pipeline failed. -/
theorem c8_driver_order_independence_exit_zero (env : Env)
    (sourceFiles : List String) (od gno gda : String) (dump : Bool) :
    (gcovMain env sourceFiles od gno gda dump).2 = 0 ∧
    ∀ i, (gcovMain env sourceFiles od gno gda dump).1.get? i =
      (sourceFiles.get? i).map fun sf =>
        reportCoverage env sf od gno gda dump := by
  refine ⟨rfl, fun i => ?_⟩
  simp [gcovMain, List.get?_eq_getElem?, List.getElem?_map]

/-- C9: each pipeline invocation builds its coverage graph from the fresh
default value, so the outcome at a position depends only on the source
file named there: the same source file yields the same outcome at any
position of any argument list — no coverage state from one source file
can contaminate another's report. -/
theorem c9_fresh_graph_no_cross_contamination (env : Env)
    (od gno gda : String) (dump : Bool)
    (files1 files2 : List String) (i j : Nat) (sf : String)
    (h1 : files1.get? i = some sf) (h2 : files2.get? j = some sf) :
    (gcovMain env files1 od gno gda dump).1.get? i =
      (gcovMain env files2 od gno gda dump).1.get? j ∧
    (gcovMain env files1 od gno gda dump).1.get? i =
      some (reportCoverage env sf od gno gda dump) := by
  rw [List.get?_eq_getElem?] at h1 h2
  constructor <;>
    simp [gcovMain, List.get?_eq_getElem?, List.getElem?_map, h1, h2]

theorem c9_witness :
    (["a.c", "t.c"] : List String).get? 1 = some "t.c" ∧
    (["t.c"] : List String).get? 0 = some "t.c" ∧
    ((gcovMain env1 ["a.c", "t.c"] "" "" "" false).1.get? 1 =
       (gcovMain env1 ["t.c"] "" "" "" false).1.get? 0 ∧
     (gcovMain env1 ["a.c", "t.c"] "" "" "" false).1.get? 1 =
       some (reportCoverage env1 "t.c" "" "" "" false)) :=
  ⟨rfl, rfl,
   c9_fresh_graph_no_cross_contamination env1 "" "" "" false
     ["a.c", "t.c"] ["t.c"] 1 0 "t.c" rfl rfl⟩

/-- File system where `t.gcno` exists and the explicitly overridden data
file `custom.gcda` does not. -/
def fsCustomMissing : String → Except ErrorCode Buffer := fun n =>
  if n = "t.gcno" then .ok [1] else .error .noSuchFileOrDirectory

def env10 : Env := mkEnv fsCustomMissing true true true

/-- C10: an explicit `--gcda` override is used verbatim as the data-file
name, and when that file is missing the pipeline applies the very same
silent fallback as for an inferred name: no diagnostic, effective
data-file name "-", and the renderer is still invoked with the
notes-only graph — the absence of an explicitly requested data file is
not an error. -/
theorem c10_explicit_gcda_override_missing_fallback (env : Env)
    (sf od gno gdaOverride : String) (dump : Bool) (b : Buffer)
    (hov : gdaOverride ≠ "")
    (hload : env.getFileOrSTDIN (notesName env sf od gno) = .ok b)
    (hparse : env.readGCNOok b = true)
    (hmiss : env.getFileOrSTDIN gdaOverride =
      .error .noSuchFileOrDirectory) :
    dataName env sf od gdaOverride = gdaOverride ∧
    (reportCoverage env sf od gno gdaOverride dump).diags = [] ∧
    (reportCoverage env sf od gno gdaOverride dump).render =
      some { sourceFile := sf, gcno := notesName env sf od gno, gcda := "-",
             gf := { notes := some b, data := none } } := by
  simp only [notesName] at hload
  have hdn : createInputFileName (createCoverageFileStem env sf od)
      gdaOverride "da" = gdaOverride := by
    simp [createInputFileName, hov]
  refine ⟨hdn, ?_, ?_⟩ <;>
    simp [reportCoverage, validateGCNOFile, hdn, hov, hload,
      hparse, hmiss, notesName]

theorem c10_witness :
    ("custom.gcda" : String) ≠ "" ∧
    env10.getFileOrSTDIN (notesName env10 "t.c" "" "") = .ok [1] ∧
    env10.readGCNOok [1] = true ∧
    env10.getFileOrSTDIN "custom.gcda" = .error .noSuchFileOrDirectory ∧
    (dataName env10 "t.c" "" "custom.gcda" = "custom.gcda" ∧
     (reportCoverage env10 "t.c" "" "" "custom.gcda" false).diags = [] ∧
     (reportCoverage env10 "t.c" "" "" "custom.gcda" false).render =
       some { sourceFile := "t.c", gcno := notesName env10 "t.c" "" "",
              gcda := "-", gf := { notes := some [1], data := none } }) :=
  ⟨by decide, rfl, rfl, rfl,
   c10_explicit_gcda_override_missing_fallback env10 "t.c" "" ""
     "custom.gcda" false [1] (by decide) rfl rfl rfl⟩

end Gcov
